import Mathlib

/-!
Verification of the RobotMind-Lite simulation core
(`backend/simulation/{gym_env,robot,world,sensors}.py`) against its
natural-language specification.

Modelling conventions.
* All numeric state is `ℚ` (the Python code computes over IEEE doubles; the
  claims under scrutiny concern exact constants, orderings and control flow,
  for which exact rational arithmetic is the faithful real-number semantics).
* The pymunk physics engine and the ray-geometry queries are external
  capabilities per the spec ("step the world, report collision"); a step of
  the world is therefore an oracle input carrying the robot position after
  the tick, the collision flag, and the sensor ray distances.
* Values the Python code obtains from `sqrt` / trigonometric calls and then
  feeds into the reward (displacement, distance to goal, alignment cosine)
  are irrational in general; they enter the model as explicit kernel inputs.
  Comparisons such as `sqrt s < 3.0` are translated to the exact equivalent
  squared comparison `s < 9`.
* Python's float `%` with a positive modulus returns a value in `[0, m)`
  equal to `x - m * floor (x / m)`; `qmod` below is that operation on `ℚ`.
-/

/-- Python's `x % m` for rationals (result in `[0, m)` when `0 < m`). -/
def qmod (x m : ℚ) : ℚ := x - m * (⌊x / m⌋ : ℤ)

/-- `int(np.clip((pos / size) * gs, 0, gs - 1))` — the coarse visited-grid
cell index used everywhere in `gym_env.py` (clip then truncate; the clipped
value is nonnegative, so truncation is floor). -/
def gridCell (pos size : ℚ) (gs : Nat) : ℤ :=
  ⌊max 0 (min (pos / size * gs) ((gs : ℚ) - 1))⌋

/-- Append to the heading-history `deque(maxlen=20)`: the oldest entry is
dropped once the buffer holds 20 samples. -/
def pushHist (h : List ℚ) (v : ℚ) : List ℚ :=
  let h2 := h ++ [v]
  h2.drop (h2.length - 20)

/-- Sum of absolute wrapped heading deltas over the heading-history buffer
(gym_env.py lines 602-606: `(h[i] - h[i-1] + 180.0) % 360.0 - 180.0`). -/
def totalTurn : List ℚ → ℚ
  | a :: b :: rest => abs (qmod (b - a + 180) 360 - 180) + totalTurn (b :: rest)
  | _ => 0

/-- `np.min` over a ray-distance list (distance lists are nonempty in every
use; the `[]` case is inert padding to keep the function total). -/
def listMin : List ℚ → ℚ
  | [] => 1
  | [a] => a
  | a :: b :: rest => min a (listMin (b :: rest))

/-- `np.mean` over a ray-distance list (total: `0` on the unused `[]` case). -/
def listMean (l : List ℚ) : ℚ :=
  if l.length = 0 then 0 else l.sum / l.length

/-- Python's `round` (banker's rounding, half-to-even), used for the
front-sector span `round(self.ray_count * 0.22)`. -/
def pyRound (q : ℚ) : ℤ :=
  let f := ⌊q⌋
  let r := q - f
  if r < 1/2 then f
  else if 1/2 < r then f + 1
  else if f % 2 = 0 then f else f + 1

/-- The three flat-ground kinematic models (`_resolve_flat_ground_model`). -/
inductive FlatModel
  | differential
  | ackermann
  | rover
deriving DecidableEq, Repr

/-- Immutable environment configuration, the fields of `RobotEnv.__init__`
that the claims touch (world dimensions, goal geometry, sensor layout,
dynamics-noise switches, kinematic model). -/
structure DiscreteCfg where
  width : ℚ
  height : ℚ
  maxSteps : Nat
  rayCount : Nat
  sensorAngles : Option (List ℚ)
  hasGoal : Bool
  goalRadius : ℚ
  robotRadius : ℚ
  baseSpeed : ℚ
  baseTurnRate : ℚ
  reverseEnabled : Bool
  headingDriftStd : ℚ
  turnNoiseStd : ℚ
  speedNoiseStd : ℚ
  model : FlatModel
deriving Repr

/-- Mutable per-episode state of `RobotEnv` (robot pose plus the episode
memory: step counter, consecutive-collision counter, last position,
last goal distance, heading history, visited cells, stagnation tracker). -/
structure DiscreteState where
  x : ℚ
  y : ℚ
  heading : ℚ
  speed : ℚ
  turnRate : ℚ
  goalX : ℚ
  goalY : ℚ
  currentStep : Nat
  consecutiveCollisions : Nat
  lastReward : ℚ
  lastX : ℚ
  lastY : ℚ
  lastGoalDist : ℚ
  headingHistory : List ℚ
  visitedCells : List (ℤ × ℤ)
  stagnationBestDist : ℚ
  stagnationSteps : Nat
deriving Repr, DecidableEq

/-- Pose produced by `Robot.reset` in robot.py: the function signature is
`reset(self, x, y)` — it takes no heading argument — and its body sets
`angle_degrees = 0.0`.  (`SimulationWorld.reset` nevertheless calls it with
an `angle_degrees` keyword, which that signature rejects; the model keeps the
executable semantics of the function body, i.e. the drawn heading is
dropped and the heading comes out 0.) -/
structure RobotPose where
  x : ℚ
  y : ℚ
  heading : ℚ
deriving Repr, DecidableEq

/-- `Robot.reset(x, y)` from robot.py lines 40-44: position set, velocity
zeroed (velocity feeds only the external physics and is not part of the
modelled state), heading forced to 0.0. -/
def robotReset (x y : ℚ) : RobotPose :=
  { x := x, y := y, heading := 0 }

/-- `SimulationWorld.reset(angle_degrees)` from world.py lines 100-102:
forwards to `Robot.reset` at the world centre.  `Robot.reset` does not
accept the heading argument (see `RobotPose`), so the drawn heading never
reaches the robot. -/
def worldReset (width height angleDegrees : ℚ) : RobotPose :=
  robotReset (width / 2) (height / 2)

/-- Randomness and sqrt-kernel values consumed by one `RobotEnv.reset()`:
the uniformly drawn heading, the resolved spawn position (the outcome of the
fixed-spawn / randomized / centre-with-fallback priority chain, whose random
attempts against obstacle geometry are abstracted to their result), the
per-episode speed/turn scales, the goal position after optional
randomisation, and the initial Euclidean distance to the goal. -/
structure ResetDraw where
  drawnHeading : ℚ
  spawnX : ℚ
  spawnY : ℚ
  speedScale : ℚ
  turnScale : ℚ
  goalX : ℚ
  goalY : ℚ
  goalDist : ℚ
deriving Repr

/-- `RobotEnv.reset` from gym_env.py lines 305-368: world reset with the
drawn heading, spawn resolution, per-episode scale draw, then the episode
memory is cleared — heading history cleared and re-seeded with the robot's
heading, visited cells cleared and seeded with the starting cell, stagnation
tracker reset — and the initial goal distance cached. -/
def robotEnvReset (cfg : DiscreteCfg) (d : ResetDraw) : DiscreteState :=
  let p := worldReset cfg.width cfg.height d.drawnHeading
  let startCell := (gridCell d.spawnX cfg.width 16, gridCell d.spawnY cfg.height 16)
  let gd := if cfg.hasGoal then d.goalDist else 0
  { x := d.spawnX
    y := d.spawnY
    heading := p.heading
    speed := cfg.baseSpeed * d.speedScale
    turnRate := cfg.baseTurnRate * d.turnScale
    goalX := d.goalX
    goalY := d.goalY
    currentStep := 0
    consecutiveCollisions := 0
    lastReward := 0
    lastX := d.spawnX
    lastY := d.spawnY
    lastGoalDist := gd
    headingHistory := [p.heading]
    visitedCells := [startCell]
    stagnationBestDist := gd
    stagnationSteps := 0 }

/-- `CurriculumRobotEnv.reset` from gym_env.py lines 1286-1337: swaps the
obstacle layout (obstacle geometry is outside the modelled state), resets the
world, randomizes spawn and goal, then resets the housekeeping state.  It
clears the heading history (without re-seeding it) and resets the stagnation
tracker, but — unlike the base reset — it neither clears the visited-cell
set nor seeds it with the starting cell. -/
def curriculumEnvReset (cfg : DiscreteCfg) (s : DiscreteState) (d : ResetDraw) :
    DiscreteState :=
  let p := worldReset cfg.width cfg.height d.drawnHeading
  let gd := if cfg.hasGoal then d.goalDist else 0
  { x := d.spawnX
    y := d.spawnY
    heading := p.heading
    speed := cfg.baseSpeed * d.speedScale
    turnRate := cfg.baseTurnRate * d.turnScale
    goalX := d.goalX
    goalY := d.goalY
    currentStep := 0
    consecutiveCollisions := 0
    lastReward := 0
    lastX := d.spawnX
    lastY := d.spawnY
    lastGoalDist := gd
    headingHistory := []
    visitedCells := s.visitedCells
    stagnationBestDist := gd
    stagnationSteps := 0 }

/-- Oracle inputs consumed by one `RobotEnv.step(action)`: the action, the
noise draws (heading drift, turn noise; speed noise affects only the
velocity fed to the external physics), the world-physics outcome (collision
flag and robot position after the tick), the sensor ray distances of the
observation (post noise-and-clip), and the sqrt/cos kernel values the code
derives from positions: `disp` = Euclidean displacement this step,
`goalDist` = Euclidean distance to the goal after the step, `alignment` =
cosine of the wrapped difference between goal bearing and heading. -/
structure StepInput where
  action : Nat
  drift : ℚ
  turnNoise : ℚ
  collided : Bool
  newX : ℚ
  newY : ℚ
  rays : List ℚ
  disp : ℚ
  goalDist : ℚ
  alignment : ℚ
deriving Repr

/-- Consistency of the sqrt/cos kernel values of a step input with the
positions they are derived from (what real `sqrt` and `cos` guarantee). -/
def KernelOk (s : DiscreteState) (i : StepInput) : Prop :=
  0 ≤ i.disp ∧ i.disp ^ 2 = (i.newX - s.x) ^ 2 + (i.newY - s.y) ^ 2 ∧
  0 ≤ i.goalDist ∧ i.goalDist ^ 2 = (i.newX - s.goalX) ^ 2 + (i.newY - s.goalY) ^ 2 ∧
  -1 ≤ i.alignment ∧ i.alignment ≤ 1

instance (s : DiscreteState) (i : StepInput) : Decidable (KernelOk s i) := by
  unfold KernelOk; infer_instance

/-- Kinematic heading turn of `RobotEnv.step` (gym_env.py lines 373-416) for
the selected flat-ground model; actions 0 (forward) and 3 (reverse) touch
only the velocity.  Every mutation is reduced `% 360` as in the source.
The full heading update (`stepHeadingUpdate` below) chains this with the
drift and turn noises. -/
def kinematicHeading (model : FlatModel) (turnRate h : ℚ) (action : Nat) : ℚ :=
  match model with
  | FlatModel.ackermann =>
      if action = 1 then qmod (h - turnRate * 0.7) 360
      else if action = 2 then qmod (h + turnRate * 0.7) 360
      else h
  | FlatModel.rover =>
      if action = 1 then qmod (h - turnRate * 0.85) 360
      else if action = 2 then qmod (h + turnRate * 0.85) 360
      else h
  | FlatModel.differential =>
      if action = 1 then qmod (h - turnRate) 360
      else if action = 2 then qmod (h + turnRate) 360
      else h

/-- Heading drift noise of gym_env.py lines 418-421 (applied whenever the
profile configures a positive drift std). -/
def driftHeading (driftStd h drift : ℚ) : ℚ :=
  if driftStd > 0 then qmod (h + drift) 360 else h

/-- Turn noise of gym_env.py lines 423-426 (turning actions only). -/
def turnNoiseHeading (turnStd : ℚ) (action : Nat) (h turnNoise : ℚ) : ℚ :=
  if turnStd > 0 ∧ (action = 1 ∨ action = 2) then qmod (h + turnNoise) 360 else h

def stepHeadingUpdate (cfg : DiscreteCfg) (turnRate h : ℚ) (action : Nat)
    (drift turnNoise : ℚ) : ℚ :=
  turnNoiseHeading cfg.turnNoiseStd action
    (driftHeading cfg.headingDriftStd (kinematicHeading cfg.model turnRate h action) drift)
    turnNoise

/-- Robot heading after `RobotEnv.step` (the external physics tick does not
touch `angle_degrees`, which is a plain Python attribute). -/
def discreteHeadingAfter (cfg : DiscreteCfg) (s : DiscreteState) (i : StepInput) : ℚ :=
  stepHeadingUpdate cfg s.turnRate s.heading i.action i.drift i.turnNoise

/-- `SimulationWorld.check_goal_reached` (world.py lines 104-111) evaluated at
the post-step position, gated on `has_goal` as in gym_env.py line 625.  The
comparison `dist <= goal_radius + robot_radius` is stated on squares, exactly
equivalent for the nonnegative real quantities involved. -/
def discreteGoalNow (cfg : DiscreteCfg) (s : DiscreteState) (i : StepInput) : Bool :=
  cfg.hasGoal &&
    decide ((i.newX - s.goalX) ^ 2 + (i.newY - s.goalY) ^ 2 ≤
      (cfg.goalRadius + cfg.robotRadius) ^ 2)

/-- Consecutive-collision counter after the step (gym_env.py lines 442, 447). -/
def discreteCC (s : DiscreteState) (i : StepInput) : Nat :=
  if i.collided then s.consecutiveCollisions + 1 else 0

/-- Squared positional change since the previous step, the quantity whose
root is `pos_change` in gym_env.py lines 578-580 (`_last_x/_last_y` hold the
position recorded at the end of the previous non-collision step). -/
def discretePosChangeSq (s : DiscreteState) (i : StepInput) : ℚ :=
  (i.newX - s.lastX) ^ 2 + (i.newY - s.lastY) ^ 2

/-- Heading history after the non-collision append of gym_env.py line 596. -/
def discreteHistAfter (cfg : DiscreteCfg) (s : DiscreteState) (i : StepInput) : List ℚ :=
  pushHist s.headingHistory (discreteHeadingAfter cfg s i)

/-- Whether the spin penalty of gym_env.py lines 601-612 fires on this step:
non-collision path, heading history (after the append) holding at least 10
samples, total wrapped turn above 80 degrees, and positional change since
the previous step under 3 units (squared comparison, exact). -/
def discreteSpinFired (cfg : DiscreteCfg) (s : DiscreteState) (i : StepInput) : Bool :=
  !i.collided && decide ((discreteHistAfter cfg s i).length ≥ 10)
    && decide (totalTurn (discreteHistAfter cfg s i) > 80)
    && decide (discretePosChangeSq s i < 9)

/-- Coarse 16x16 visited-grid cell of the post-step position. -/
def discreteCell (cfg : DiscreteCfg) (i : StepInput) : ℤ × ℤ :=
  (gridCell i.newX cfg.width 16, gridCell i.newY cfg.height 16)

/-- Whether this non-collision step enters a never-visited cell
(gym_env.py line 591). -/
def discreteExplored (cfg : DiscreteCfg) (s : DiscreteState) (i : StepInput) : Bool :=
  decide (discreteCell cfg i ∉ s.visitedCells)

/-- Minimum of the ray values selected by an index list, defaulting to the
overall minimum when the index list is empty (gym_env.py lines 472-477). -/
def minAt (rays : List ℚ) (idx : List Nat) (dflt : ℚ) : ℚ :=
  if idx.isEmpty then dflt else listMin (idx.map (fun j => rays.getD j 1))

/-- Front/left/right sector minima of gym_env.py lines 455-477: identical to
the overall minimum when fewer than 3 rays; otherwise selected either by the
normalized fixed sensor angles or by position in the field-of-view fan. -/
def sectorMins (cfg : DiscreteCfg) (rays : List ℚ) (minD : ℚ) : ℚ × ℚ × ℚ :=
  if cfg.rayCount ≥ 3 then
    match cfg.sensorAngles with
    | some angles =>
        if angles.length = cfg.rayCount then
          let na := angles.map (fun a => qmod (a + 180) 360 - 180)
          let fi := (List.range cfg.rayCount).filter (fun (j : Nat) => abs (na.getD j 0) ≤ 35)
          let li := (List.range cfg.rayCount).filter (fun (j : Nat) => na.getD j 0 > 20)
          let ri := (List.range cfg.rayCount).filter (fun (j : Nat) => na.getD j 0 < -20)
          (minAt rays fi minD, minAt rays li minD, minAt rays ri minD)
        else
          let center := ((cfg.rayCount : ℚ) - 1) / 2
          let span : ℤ := max 1 (pyRound ((cfg.rayCount : ℚ) * 0.22))
          let fi := (List.range cfg.rayCount).filter (fun (j : Nat) => abs ((j : ℚ) - center) ≤ (span : ℚ))
          let li := (List.range cfg.rayCount).filter (fun (j : Nat) => (j : ℚ) > center + 0.5)
          let ri := (List.range cfg.rayCount).filter (fun (j : Nat) => (j : ℚ) < center - 0.5)
          (minAt rays fi minD, minAt rays li minD, minAt rays ri minD)
    | none =>
        let center := ((cfg.rayCount : ℚ) - 1) / 2
        let span : ℤ := max 1 (pyRound ((cfg.rayCount : ℚ) * 0.22))
        let fi := (List.range cfg.rayCount).filter (fun (j : Nat) => abs ((j : ℚ) - center) ≤ (span : ℚ))
        let li := (List.range cfg.rayCount).filter (fun (j : Nat) => (j : ℚ) > center + 0.5)
        let ri := (List.range cfg.rayCount).filter (fun (j : Nat) => (j : ℚ) < center - 0.5)
        (minAt rays fi minD, minAt rays li minD, minAt rays ri minD)
  else (minD, minD, minD)

/-- The non-collision reward of `RobotEnv.step` (gym_env.py lines 447-619)
WITHOUT the spin-penalty term: survival bonus, two-stage proximity gradient
with clear-space displacement/clearance/open-space/idle terms, directional
sensor-action coupling, goal-directed terms, exploration bonus, and the
soft-stuck penalty. -/
def discreteNCBase (cfg : DiscreteCfg) (s : DiscreteState) (i : StepInput) : ℚ :=
  let raysN := i.rays.take cfg.rayCount
  let minD := listMin raysN
  let meanD := listMean raysN
  let sm := sectorMins cfg raysN minD
  let survival : ℚ := 0.01
  let proximity : ℚ :=
    if minD ≤ 0.20 then -0.02 - (0.20 - minD) * 5
    else if minD < 0.35 then -0.005 - (0.35 - minD) * 1.2
    else i.disp * 0.025
      + (if minD > 0.40 then 0.015 else 0)
      + (if meanD > 0.60 ∧ i.disp > 0.5 then 0.04 else 0)
      + (if meanD > 0.60 ∧ i.disp < 0.3 then
           -0.015 + (if i.action = 1 ∨ i.action = 2 then -0.008 else 0) else 0)
  let forwardCouple : ℚ :=
    if i.action = 0 ∧ sm.1 < 0.18 then -(0.25 + (0.18 - sm.1) * 2) else 0
  let turnCouple : ℚ :=
    if (i.action = 1 ∨ i.action = 2) ∧ sm.1 < 0.25 then
      if (i.action = 1 ∧ sm.2.1 > sm.2.2) ∨ (i.action = 2 ∧ sm.2.2 > sm.2.1)
      then 0.05 + max 0 (0.25 - sm.1) * 0.4
      else -0.03
    else 0
  let reverseCouple : ℚ :=
    if i.action = 3 ∧ cfg.reverseEnabled ∧ sm.1 < 0.20 then 0.08 else 0
  let goalTerms : ℚ :=
    if cfg.hasGoal then
      let delta := s.lastGoalDist - i.goalDist
      (if delta > 0 then delta * 2 else delta * 1.2)
        + (if i.disp > 0.3 then i.alignment * 0.15 else i.alignment * 0.008)
        + (if i.goalDist < 80 then (80 - i.goalDist) * 0.003 else 0)
    else 0
  let explore : ℚ := if discreteExplored cfg s i then 0.015 else 0
  let stuck : ℚ :=
    if discretePosChangeSq s i < 4 ∧ ¬(minD < 0.35) then
      -(0.08 * (1 + min ((s.currentStep + 1 : ℚ) / ((max 1 cfg.maxSteps : Nat) : ℚ)) 0.6))
    else 0
  survival + proximity + forwardCouple + turnCouple + reverseCouple + goalTerms
    + explore + stuck

/-- Reward of the two main branches of `RobotEnv.step`: flat -40.0 when the
world reports a collision (gym_env.py line 445), otherwise the shaped
non-collision reward including the spin penalty. -/
def discreteCoreReward (cfg : DiscreteCfg) (s : DiscreteState) (i : StepInput) : ℚ :=
  if i.collided then -40
  else discreteNCBase cfg s i + (if discreteSpinFired cfg s i then -(1/2 : ℚ) else 0)

/-- `terminated = (consecutive collisions after the step) >= 2`
(gym_env.py line 634). -/
def discreteTerminated (s : DiscreteState) (i : StepInput) : Bool :=
  decide (discreteCC s i ≥ 2)

/-- Episode-survival completion bonus of gym_env.py lines 642-643: +12 when
the incremented step counter reaches `max_steps` without termination. -/
def discreteCompletionBonus (cfg : DiscreteCfg) (s : DiscreteState) (i : StepInput) : ℚ :=
  if s.currentStep + 1 ≥ cfg.maxSteps ∧ discreteTerminated s i = false then 12 else 0

/-- Total reward returned by `RobotEnv.step`: branch reward, then the +100
goal bonus (line 627), then the completion bonus (line 643). -/
def discreteReward (cfg : DiscreteCfg) (s : DiscreteState) (i : StepInput) : ℚ :=
  discreteCoreReward cfg s i + (if discreteGoalNow cfg s i then 100 else 0)
    + discreteCompletionBonus cfg s i

/-- `truncated = step count reached max_steps or goal reached`
(gym_env.py line 635). -/
def discreteTruncated (cfg : DiscreteCfg) (s : DiscreteState) (i : StepInput) : Bool :=
  decide (s.currentStep + 1 ≥ cfg.maxSteps) || discreteGoalNow cfg s i

/-- Environment state after `RobotEnv.step`: pose from the physics tick and
the heading chain; episode memory (`_last_x/_last_y`, `_last_goal_dist`,
heading history, visited cells) is only updated on the non-collision path,
exactly as in the source. -/
def discreteStateAfter (cfg : DiscreteCfg) (s : DiscreteState) (i : StepInput) :
    DiscreteState :=
  { s with
    x := i.newX
    y := i.newY
    heading := discreteHeadingAfter cfg s i
    currentStep := s.currentStep + 1
    consecutiveCollisions := discreteCC s i
    lastReward := discreteReward cfg s i
    lastX := if i.collided then s.lastX else i.newX
    lastY := if i.collided then s.lastY else i.newY
    lastGoalDist :=
      if i.collided then s.lastGoalDist
      else if cfg.hasGoal then i.goalDist else s.lastGoalDist
    headingHistory := if i.collided then s.headingHistory else discreteHistAfter cfg s i
    visitedCells :=
      if i.collided then s.visitedCells
      else if discreteExplored cfg s i then discreteCell cfg i :: s.visitedCells
      else s.visitedCells }

/-- Result of one environment step, the `(observation-independent part of
the) 5-tuple` returned by `step`. -/
structure StepResult where
  state : DiscreteState
  reward : ℚ
  terminated : Bool
  truncated : Bool
  goalReached : Bool
deriving Repr

/-- One full `RobotEnv.step(action)` (gym_env.py lines 370-654). -/
def discreteStep (cfg : DiscreteCfg) (s : DiscreteState) (i : StepInput) : StepResult :=
  { state := discreteStateAfter cfg s i
    reward := discreteReward cfg s i
    terminated := discreteTerminated s i
    truncated := discreteTruncated cfg s i
    goalReached := discreteGoalNow cfg s i }

/-- Run a sequence of steps from a state, returning the last step's result. -/
def runSteps (cfg : DiscreteCfg) (s0 : DiscreteState) (inputs : List StepInput) :
    StepResult :=
  inputs.foldl (fun acc i => discreteStep cfg acc.state i)
    { state := s0, reward := 0, terminated := false, truncated := false,
      goalReached := false }

/-- Configuration of `ContinuousRobotEnv` (the fields its step touches). -/
structure ContCfg where
  maxSteps : Nat
  rayCount : Nat
  hasGoal : Bool
  goalRadius : ℚ
  robotRadius : ℚ
  headingDriftStd : ℚ
  turnNoiseStd : ℚ
  speedNoiseStd : ℚ
  model : FlatModel
deriving Repr

/-- Mutable state of `ContinuousRobotEnv` (no collision counter and no
navigation memory: the continuous variant keeps none). -/
structure ContState where
  x : ℚ
  y : ℚ
  heading : ℚ
  speed : ℚ
  turnRate : ℚ
  goalX : ℚ
  goalY : ℚ
  currentStep : Nat
deriving Repr, DecidableEq

/-- Oracle inputs of one `ContinuousRobotEnv.step(action)`: the raw 2-vector
action (clipped inside the step), noise draws, the world-physics outcome and
the ray distances, plus the sqrt-kernel displacement value. -/
structure ContInput where
  throttle : ℚ
  turn : ℚ
  turnNoise : ℚ
  drift : ℚ
  collided : Bool
  newX : ℚ
  newY : ℚ
  rays : List ℚ
  disp : ℚ
deriving Repr

/-- Python `np.clip(v, -1, 1)`. -/
def clip1 (v : ℚ) : ℚ := max (-1) (min v 1)

/-- Heading after `ContinuousRobotEnv.step` (gym_env.py lines 1026-1043):
`turn_delta = turn * turn_rate * turn_gain` plus configured noises, and the
heading is always reduced `% 360`. -/
def contHeadingAfter (cfg : ContCfg) (s : ContState) (i : ContInput) : ℚ :=
  let turn := clip1 i.turn
  let turnGain : ℚ :=
    match cfg.model with
    | FlatModel.ackermann => 0.75
    | FlatModel.rover => 0.9
    | FlatModel.differential => 1
  let d0 := turn * s.turnRate * turnGain
  let d1 := if cfg.turnNoiseStd > 0 then d0 + i.turnNoise else d0
  let d2 := if cfg.headingDriftStd > 0 then d1 + i.drift else d1
  qmod (s.heading + d2) 360

/-- Goal test of the continuous step (same `check_goal_reached`, squared). -/
def contGoalNow (cfg : ContCfg) (s : ContState) (i : ContInput) : Bool :=
  cfg.hasGoal &&
    decide ((i.newX - s.goalX) ^ 2 + (i.newY - s.goalY) ^ 2 ≤
      (cfg.goalRadius + cfg.robotRadius) ^ 2)

/-- Reward of `ContinuousRobotEnv.step` (gym_env.py lines 1058-1088): flat
-50 on collision; otherwise the displacement term is multiplied by zero
inside the danger radius (`min_dist < 0.5`) and a `-0.01 * danger` offset
applies, then the linear proximity penalty `(0.5 - min_dist) * 4.0` is
subtracted below 0.5, and a +0.02 clearance bonus is added above 0.7;
finally +100 when the goal is reached. -/
def contReward (cfg : ContCfg) (s : ContState) (i : ContInput) : ℚ :=
  let base : ℚ :=
    if i.collided then -50
    else
      let minD := listMin (i.rays.take cfg.rayCount)
      let danger := minD < 0.5
      let r0 := (i.disp * 0.02 - 0.01) * (if danger then 0 else 1)
        - 0.01 * (if danger then 1 else 0)
      let r1 := if minD < 0.5 then r0 - (0.5 - minD) * 4 else r0
      if minD > 0.7 then r1 + 0.02 else r1
  base + (if contGoalNow cfg s i then 100 else 0)

/-- Result of one continuous step. -/
structure ContResult where
  state : ContState
  reward : ℚ
  terminated : Bool
  truncated : Bool
  goalReached : Bool
deriving Repr

/-- One full `ContinuousRobotEnv.step(action)` (gym_env.py lines 1023-1102):
`terminated = collided` (single-hit termination), `truncated` on the step
budget or on goal success. -/
def continuousStep (cfg : ContCfg) (s : ContState) (i : ContInput) : ContResult :=
  { state :=
      { s with
        x := i.newX
        y := i.newY
        heading := contHeadingAfter cfg s i
        currentStep := s.currentStep + 1 }
    reward := contReward cfg s i
    terminated := i.collided
    truncated := decide (s.currentStep + 1 ≥ cfg.maxSteps) || contGoalNow cfg s i
    goalReached := contGoalNow cfg s i }

/-- `cast_rays` from sensors.py lines 11-40: raises
`ValueError("ray_count must be >= 2")` before any geometry when the fan
cannot be computed; otherwise one clamped normalized distance per ray.  The
pymunk segment query is the external capability `hit` mapping a ray angle to
the hit fraction `alpha` (`none` = no obstacle within range). -/
def castRays (hit : ℚ → Option ℚ) (headingDegrees : ℚ) (rayCount : Nat)
    (fovDegrees : ℚ) : Except String (List ℚ) :=
  if rayCount < 2 then Except.error "ray_count must be >= 2"
  else Except.ok <| (List.range rayCount).map fun (j : Nat) =>
    let angle := headingDegrees - fovDegrees / 2 + (j : ℚ) * (fovDegrees / ((rayCount : ℚ) - 1))
    match hit angle with
    | none => 1
    | some alpha => max 0 (min 1 alpha)

/-- `cast_rays_at_angles` from sensors.py lines 43-77: no ray-count guard of
any kind — any list of robot-relative angles, however short, yields a
distance list. -/
def castRaysAtAngles (hit : ℚ → Option ℚ) (headingDegrees : ℚ)
    (angles : List ℚ) : List ℚ :=
  angles.map fun a =>
    match hit (headingDegrees + a) with
    | none => 1
    | some alpha => max 0 (min 1 alpha)

/-- Sensor-resolution logic of `RobotEnv.__init__` (gym_env.py lines
144-151): a fixed-angle list overrides the fan and sets `ray_count` to its
length; otherwise `ray_count = max(ray_count_arg, profile_ray_count)`.  The
constructor performs no ray-count validation whatsoever — it is a total
function of its inputs. -/
def resolveRayCount (rayCountArg : Nat) (profileRayCount : Nat)
    (sensorAngles : Option (List ℚ)) : Nat :=
  match sensorAngles with
  | some angles => angles.length
  | none => max rayCountArg profileRayCount

/-- Abstract trigonometric kernel, in degree form: `sind θ` models
`sin(deg2rad θ)`, `cosd θ` models `cos(deg2rad θ)`, and `atan2d dy dx`
models `rad2deg(atan2(dy, dx))`.  The degree form is an exact reparametrization
of the radian computations in `_get_observation` (deg2rad is injective
linear), keeping the model free of the irrational factor pi. -/
structure TrigOracle where
  sind : ℚ → ℚ
  cosd : ℚ → ℚ
  atan2d : ℚ → ℚ → ℚ

/-- Observation kernel values obtained from `sqrt` in `_get_observation`:
the raw Euclidean distance to the goal and the world diagonal. -/
structure ObsKernel where
  goalDistRaw : ℚ
  maxDist : ℚ
deriving Repr

/-- Normalized goal distance `np.clip(raw_dist / max_dist, 0, 1)`. -/
def obsDistNorm (k : ObsKernel) : ℚ := max 0 (min (k.goalDistRaw / k.maxDist) 1)

/-- Goal block of `RobotEnv._get_observation` (gym_env.py lines 292-302):
normalized distance, then sine and cosine of the RELATIVE bearing
`rel = atan2(sin(goal_angle - heading), cos(goal_angle - heading))`. -/
def discreteObsGoalTail (T : TrigOracle) (k : ObsKernel) (heading dx dy : ℚ) :
    List ℚ :=
  let goalAngle := T.atan2d dy dx
  let rel0 := goalAngle - heading
  let rel := T.atan2d (T.sind rel0) (T.cosd rel0)
  [obsDistNorm k, T.sind rel, T.cosd rel]

/-- Goal block of `ContinuousRobotEnv._get_observation` (gym_env.py lines
973-980): normalized distance, then sine and cosine of the ABSOLUTE goal
bearing `goal_angle = atan2(dy, dx)` — the robot heading is not subtracted. -/
def continuousObsGoalTail (T : TrigOracle) (k : ObsKernel) (dx dy : ℚ) : List ℚ :=
  let goalAngle := T.atan2d dy dx
  [obsDistNorm k, T.sind goalAngle, T.cosd goalAngle]

/-- Modelled from the spec (section 3, "Observation Vector"): the goal block
must hold the normalized goal distance followed by the sine and cosine of
the relative bearing to the goal, the goal direction measured relative to
the robot's current heading. -/
def specObsGoalTail (T : TrigOracle) (k : ObsKernel) (heading dx dy : ℚ) : List ℚ :=
  [obsDistNorm k, T.sind (T.atan2d dy dx - heading), T.cosd (T.atan2d dy dx - heading)]

/-- Full observation vector of `RobotEnv._get_observation`: ray distances,
sin/cos of the heading, then (if a goal is configured) the goal block. -/
def discreteObservation (T : TrigOracle) (k : ObsKernel) (rays : List ℚ)
    (heading dx dy : ℚ) (hasGoal : Bool) : List ℚ :=
  rays ++ [T.sind heading, T.cosd heading]
    ++ (if hasGoal then discreteObsGoalTail T k heading dx dy else [])

/-- Full observation vector of `ContinuousRobotEnv._get_observation`. -/
def continuousObservation (T : TrigOracle) (k : ObsKernel) (rays : List ℚ)
    (heading dx dy : ℚ) (hasGoal : Bool) : List ℚ :=
  rays ++ [T.sind heading, T.cosd heading]
    ++ (if hasGoal then continuousObsGoalTail T k dx dy else [])

/-- Concrete `arena_basic`-style configuration: 640x480 world, 5-ray fan,
differential drive, no goal, no noise, 500-step budget. -/
def cfgBasic : DiscreteCfg :=
  { width := 640, height := 480, maxSteps := 500, rayCount := 5,
    sensorAngles := none, hasGoal := false, goalRadius := 18, robotRadius := 15,
    baseSpeed := 130, baseTurnRate := 12, reverseEnabled := false,
    headingDriftStd := 0, turnNoiseStd := 0, speedNoiseStd := 0,
    model := FlatModel.differential }

/-- `cfgBasic` with a goal configured. -/
def cfgGoal : DiscreteCfg := { cfgBasic with hasGoal := true }

/-- `cfgBasic` with a 5-step budget. -/
def cfgShort : DiscreteCfg := { cfgBasic with maxSteps := 5 }

/-- Ackermann-model configuration (turns while moving forward) used by the
spin-penalty trace. -/
def cfgSpin : DiscreteCfg :=
  { cfgBasic with model := FlatModel.ackermann, baseTurnRate := 20 }

/-- Concrete reset draw: heading 90 drawn, centre spawn, unit scales, goal
80 units east of the spawn. -/
def drawBasic : ResetDraw :=
  { drawnHeading := 90, spawnX := 320, spawnY := 240, speedScale := 1,
    turnScale := 1, goalX := 400, goalY := 240, goalDist := 80 }

/-- Reset draw for the spin trace (drawn heading 0). -/
def drawSpin : ResetDraw := { drawBasic with drawnHeading := 0 }

/-- State of `cfgBasic` right after reset. -/
def stateBasic : DiscreteState := robotEnvReset cfgBasic drawBasic

/-- State of `cfgGoal` right after reset (goal 80 units east of the robot). -/
def stateGoal : DiscreteState := robotEnvReset cfgGoal drawBasic

/-- `stateGoal` after one collision has been registered. -/
def stateGoalCC1 : DiscreteState := { stateGoal with consecutiveCollisions := 1 }

/-- A collision-free forward step in open space: moves 5 units east, all
rays clear. -/
def stepInputNC : StepInput :=
  { action := 0, drift := 0, turnNoise := 0, collided := false,
    newX := 325, newY := 240, rays := [1, 1, 1, 1, 1], disp := 5,
    goalDist := 75, alignment := 1 }

/-- A collision step (world reports contact, the robot stays put). -/
def stepInputC : StepInput :=
  { stepInputNC with collided := true, newX := 320, disp := 0, goalDist := 80 }

/-- A collision step whose post-step position also lies inside the goal
circle (a goal placed adjacent to a wall). -/
def goalHitInputC : StepInput :=
  { stepInputC with newX := 375, disp := 0, goalDist := 25 }

/-- A collision-free step that reaches the goal circle. -/
def goalHitInputNC : StepInput :=
  { stepInputNC with newX := 375, disp := 5, goalDist := 25 }

/-- One step of the spin trace under `cfgSpin`: a turning action while the
world moves the robot east from `x0` to `x1` (the ackermann model keeps
translating while it turns; displacement kernel value is exact since the
motion is axis-aligned). -/
def spinInput (a : Nat) (x0 x1 : ℚ) : StepInput :=
  { action := a, drift := 0, turnNoise := 0, collided := false,
    newX := x1, newY := 240, rays := [1, 1, 1, 1, 1], disp := x1 - x0,
    goalDist := 0, alignment := 0 }

/-- Eight alternating-turn steps moving 5 units east each, oscillating the
heading by 14 degrees per step. -/
def spinTrace8 : List StepInput :=
  [spinInput 1 320 325, spinInput 2 325 330, spinInput 1 330 335,
   spinInput 2 335 340, spinInput 1 340 345, spinInput 2 345 350,
   spinInput 1 350 355, spinInput 2 355 360]

/-- Reset state for the spin trace. -/
def stateSpin0 : DiscreteState := robotEnvReset cfgSpin drawSpin

/-- Helper building the intermediate states of the spin trace (all share
y = 240, zero collision counter, no goal). -/
def mkSpinState (cs : Nat) (h x lastRew : ℚ) (hist : List ℚ)
    (vis : List (ℤ × ℤ)) : DiscreteState :=
  { x := x, y := 240, heading := h, speed := 130, turnRate := 20,
    goalX := 400, goalY := 240, currentStep := cs, consecutiveCollisions := 0,
    lastReward := lastRew, lastX := x, lastY := 240, lastGoalDist := 0,
    headingHistory := hist, visitedCells := vis, stagnationBestDist := 0,
    stagnationSteps := 0 }

/-- Spin-trace states after steps 1-8. -/
def sSpin1 : DiscreteState := mkSpinState 1 346 325 0.19 [0, 346] [(8, 8)]

def sSpin2 : DiscreteState := mkSpinState 2 0 330 0.19 [0, 346, 0] [(8, 8)]

def sSpin3 : DiscreteState := mkSpinState 3 346 335 0.19 [0, 346, 0, 346] [(8, 8)]

def sSpin4 : DiscreteState := mkSpinState 4 0 340 0.19 [0, 346, 0, 346, 0] [(8, 8)]

def sSpin5 : DiscreteState :=
  mkSpinState 5 346 345 0.19 [0, 346, 0, 346, 0, 346] [(8, 8)]

def sSpin6 : DiscreteState :=
  mkSpinState 6 0 350 0.19 [0, 346, 0, 346, 0, 346, 0] [(8, 8)]

def sSpin7 : DiscreteState :=
  mkSpinState 7 346 355 0.19 [0, 346, 0, 346, 0, 346, 0, 346] [(8, 8)]

def sSpin8 : DiscreteState :=
  mkSpinState 8 0 360 0.205 [0, 346, 0, 346, 0, 346, 0, 346, 0] [(9, 8), (8, 8)]

/-- The ninth step of the spin trace: a turn while moving only 2 units. -/
def spinInput9 : StepInput := spinInput 1 360 362

/-- `stateBasic` four steps before the step budget of `cfgShort` expires. -/
def stateNearEnd : DiscreteState := { stateBasic with currentStep := 4 }

/-- A previous-episode state carrying leftover episode memory. -/
def statePrev : DiscreteState :=
  { stateBasic with
    visitedCells := [(3, 3)]
    headingHistory := [10, 20]
    stagnationSteps := 7 }

/-- Concrete trig kernel agreeing with the real (degree-form) sine, cosine
and atan2 at every input the C7 inputs touch: atan2 of (0, positive) is 0,
of (0, negative) is 180; sine of 0 and of plus/minus 180 degrees is 0;
cosine is 1 at 0 and -1 at plus/minus 180 degrees. -/
def axisTrig : TrigOracle :=
  { sind := fun _ => 0
    cosd := fun t => if t = 0 then 1 else if t = 180 ∨ t = -180 then -1 else 0
    atan2d := fun dy dx =>
      if dx > 0 then 0
      else if dx < 0 ∧ 0 ≤ dy then 180
      else if dx < 0 then -180
      else if dy > 0 then 90
      else if dy < 0 then -90
      else 0 }

/-- A degenerate trig kernel satisfying the wrap identity
`trig(atan2(sin t, cos t)) = trig t` at every input (used as a concrete
instantiation for the C7 layout theorem). -/
def constTrig : TrigOracle :=
  { sind := fun _ => 0, cosd := fun _ => 1, atan2d := fun _ _ => 0 }

/-- Observation kernel for a goal 100 units due east in a 640x480 world
(world diagonal exactly 800). -/
def obsKernelEast : ObsKernel := { goalDistRaw := 100, maxDist := 800 }

/-- Concrete continuous-control configuration with a goal. -/
def cfgCont : ContCfg :=
  { maxSteps := 500, rayCount := 5, hasGoal := true, goalRadius := 18,
    robotRadius := 15, headingDriftStd := 0, turnNoiseStd := 0,
    speedNoiseStd := 0, model := FlatModel.differential }

/-- Continuous-control state 30 units west of the goal. -/
def stateCont : ContState :=
  { x := 370, y := 240, heading := 0, speed := 130, turnRate := 12,
    goalX := 400, goalY := 240, currentStep := 0 }

/-- A continuous step that collides while its post-step position lies inside
the goal circle. -/
def contInputHit : ContInput :=
  { throttle := 1, turn := 0, turnNoise := 0, drift := 0, collided := true,
    newX := 375, newY := 240, rays := [1, 1, 1, 1, 1], disp := 5 }

/-- A collision-free continuous step inside the danger radius (minimum
normalized ray distance 0.3), away from the goal. -/
def contInputDanger : ContInput :=
  { contInputHit with
    collided := false
    newX := 300
    rays := [0.3, 1, 1, 1, 1] }

theorem qmod_nonneg (x : ℚ) {m : ℚ} (hm : 0 < m) : 0 ≤ qmod x m := by
  unfold qmod
  have h1 : (⌊x / m⌋ : ℚ) ≤ x / m := Int.floor_le _
  have h2 : m * (⌊x / m⌋ : ℚ) ≤ m * (x / m) :=
    mul_le_mul_of_nonneg_left h1 (le_of_lt hm)
  have h3 : m * (x / m) = x := by
    field_simp
  linarith

theorem qmod_lt (x : ℚ) {m : ℚ} (hm : 0 < m) : qmod x m < m := by
  unfold qmod
  have h1 : x / m < (⌊x / m⌋ : ℚ) + 1 := Int.lt_floor_add_one _
  have h2 : m * (x / m) < m * ((⌊x / m⌋ : ℚ) + 1) :=
    (mul_lt_mul_left hm).mpr h1
  have h3 : m * (x / m) = x := by
    field_simp
  nlinarith

/-- C1.  The spec requires the heading after `reset()` to equal the heading
drawn uniformly from [0, 360).  In the code, `RobotEnv.reset` draws the
heading and passes it to `SimulationWorld.reset(angle_degrees=...)`, but
`Robot.reset` is declared `reset(self, x, y)` — it does not accept the
heading keyword (a TypeError at run time) — and its body forces
`angle_degrees = 0.0`.  Under the executable semantics of the function
body, the post-reset heading is 0 for every drawn value, never the drawn
value (here 90).  The repo's own `_test_check.py` expects a large heading
spread over resets, confirming the spec is the intent and the code the slip. -/
theorem C1_reset_heading_dropped :
    (robotEnvReset cfgBasic drawBasic).heading = 0 ∧
    drawBasic.drawnHeading = 90 ∧
    (robotEnvReset cfgBasic drawBasic).heading ≠ drawBasic.drawnHeading ∧
    (∀ cfg : DiscreteCfg, ∀ d : ResetDraw, (robotEnvReset cfg d).heading = 0) :=
  ⟨rfl, rfl, by norm_num [robotEnvReset, worldReset, robotReset, drawBasic],
   fun _ _ => rfl⟩

/-- C2.  Discrete collision termination: starting from a zero
consecutive-collision counter, the first collision step does not terminate;
a second consecutive collision step returns `terminated = true`; a
non-collision step after one collision leaves `terminated = false` and
resets the counter to 0. -/
theorem C2_collision_termination (cfg : DiscreteCfg) (s : DiscreteState)
    (i1 i2 : StepInput) (h0 : s.consecutiveCollisions = 0)
    (h1 : i1.collided = true) :
    (discreteStep cfg s i1).terminated = false ∧
    (i2.collided = true →
      (discreteStep cfg (discreteStep cfg s i1).state i2).terminated = true) ∧
    (i2.collided = false →
      (discreteStep cfg (discreteStep cfg s i1).state i2).terminated = false ∧
      (discreteStep cfg (discreteStep cfg s i1).state i2).state.consecutiveCollisions
        = 0) := by
  have hcc1 : (discreteStateAfter cfg s i1).consecutiveCollisions = 1 := by
    simp [discreteStateAfter, discreteCC, h0, h1]
  refine ⟨?_, fun h2 => ?_, fun h2 => ⟨?_, ?_⟩⟩
  · simp [discreteStep, discreteTerminated, discreteCC, h0, h1]
  · simp [discreteStep, discreteTerminated, discreteCC, h2, hcc1]
  · simp [discreteStep, discreteTerminated, discreteCC, h2]
  · simp [discreteStep, discreteStateAfter, discreteCC, h2]

/-- Witness for C2 at a concrete reset state with concrete collision and
non-collision inputs. -/
theorem C2_collision_termination_witness :
    (discreteStep cfgBasic stateBasic stepInputC).terminated = false ∧
    (discreteStep cfgBasic (discreteStep cfgBasic stateBasic stepInputC).state
        stepInputC).terminated = true ∧
    (discreteStep cfgBasic (discreteStep cfgBasic stateBasic stepInputC).state
        stepInputNC).terminated = false ∧
    (discreteStep cfgBasic (discreteStep cfgBasic stateBasic stepInputC).state
        stepInputNC).state.consecutiveCollisions = 0 := by
  have h := C2_collision_termination cfgBasic stateBasic stepInputC stepInputC
    (by norm_num [stateBasic, robotEnvReset]) rfl
  have h2 := C2_collision_termination cfgBasic stateBasic stepInputC stepInputNC
    (by norm_num [stateBasic, robotEnvReset]) rfl
  exact ⟨h.1, h.2.1 rfl, (h2.2.2 rfl).1, (h2.2.2 rfl).2⟩

/-- C3 counterexample.  The claim "every collision step returns exactly
-40.0" fails: a first collision on the step that exhausts the step budget is
not terminated, so the +12 episode-completion bonus is added and `step`
returns -28. -/
theorem C3_collision_reward_counterexample :
    stepInputC.collided = true ∧
    (discreteStep cfgShort stateNearEnd stepInputC).reward = -28 ∧
    (-28 : ℚ) ≠ -40 := by
  refine ⟨rfl, ?_, by norm_num⟩
  norm_num [discreteStep, discreteReward, discreteCoreReward, discreteGoalNow,
    discreteCompletionBonus, discreteTerminated, discreteCC,
    cfgShort, cfgBasic, stateNearEnd, stateBasic, robotEnvReset, drawBasic,
    stepInputC, stepInputNC, worldReset, robotReset]

/-- C3 amended.  On every collision step the branch reward is the flat
-40.0, to which only the +100 goal bonus (goal reached on the same step) and
the +12 completion bonus (step budget exhausted without termination) can be
added — so the returned reward is exactly -40.0 whenever neither applies;
the consecutive-collision counter is incremented; termination holds exactly
when the incremented counter reaches 2; and a first hit (counter previously
0) never terminates. -/
theorem C3_collision_reward (cfg : DiscreteCfg) (s : DiscreteState)
    (i : StepInput) (hc : i.collided = true) :
    (discreteStep cfg s i).reward =
      -40 + (if discreteGoalNow cfg s i then 100 else 0)
        + (if s.currentStep + 1 ≥ cfg.maxSteps ∧ s.consecutiveCollisions + 1 < 2
           then 12 else 0) ∧
    (discreteStep cfg s i).state.consecutiveCollisions
      = s.consecutiveCollisions + 1 ∧
    ((discreteStep cfg s i).terminated = true ↔ 2 ≤ s.consecutiveCollisions + 1) ∧
    (s.consecutiveCollisions = 0 → (discreteStep cfg s i).terminated = false) := by
  refine ⟨?_, ?_, ?_, fun h0 => ?_⟩
  · simp only [discreteStep, discreteReward, discreteCoreReward,
      discreteCompletionBonus, discreteTerminated, discreteCC, hc, if_true]
    by_cases hm : s.currentStep + 1 ≥ cfg.maxSteps
    · by_cases h0 : s.consecutiveCollisions = 0
      · simp [hm, h0]
      · have hlt : ¬ (s.consecutiveCollisions + 1 < 2) := by omega
        have hge : 2 ≤ s.consecutiveCollisions + 1 := by omega
        simp [hm, h0, hlt, hge]
    · simp [hm]
  · simp [discreteStep, discreteStateAfter, discreteCC, hc]
  · simp [discreteStep, discreteTerminated, discreteCC, hc]
  · simp [discreteStep, discreteTerminated, discreteCC, hc, h0]

/-- Witness for C3 amended at a concrete collision step (no goal, budget not
exhausted, counter previously 0). -/
theorem C3_collision_reward_witness :
    (discreteStep cfgBasic stateBasic stepInputC).reward =
      -40 + (if discreteGoalNow cfgBasic stateBasic stepInputC then 100 else 0)
        + (if stateBasic.currentStep + 1 ≥ cfgBasic.maxSteps ∧
              stateBasic.consecutiveCollisions + 1 < 2 then 12 else 0) ∧
    (discreteStep cfgBasic stateBasic stepInputC).terminated = false :=
  ⟨(C3_collision_reward cfgBasic stateBasic stepInputC rfl).1,
   (C3_collision_reward cfgBasic stateBasic stepInputC rfl).2.2.2
     (by norm_num [stateBasic, robotEnvReset])⟩

/-- Spin-trace step lemma 1 (state evolution under `cfgSpin`). -/
theorem spinStep1 :
    (discreteStep cfgSpin stateSpin0 (spinInput 1 320 325)).state = sSpin1 := by
  norm_num [discreteStep, discreteStateAfter, discreteReward, discreteCoreReward,
    discreteGoalNow, discreteCompletionBonus, discreteTerminated, discreteCC,
    discreteNCBase, discreteSpinFired, discreteHistAfter, discreteHeadingAfter,
    stepHeadingUpdate, kinematicHeading, driftHeading, turnNoiseHeading, discretePosChangeSq, discreteExplored, discreteCell,
    gridCell, pushHist, listMin, listMean, sectorMins, minAt, pyRound, qmod,
    totalTurn, cfgSpin, cfgBasic, stateSpin0, robotEnvReset, drawSpin, drawBasic,
    spinInput, mkSpinState, sSpin1, worldReset, robotReset, List.range_succ,
    List.filter_cons] <;> decide

/-- Spin-trace step lemma 2. -/
theorem spinStep2 :
    (discreteStep cfgSpin sSpin1 (spinInput 2 325 330)).state = sSpin2 := by
  norm_num [discreteStep, discreteStateAfter, discreteReward, discreteCoreReward,
    discreteGoalNow, discreteCompletionBonus, discreteTerminated, discreteCC,
    discreteNCBase, discreteSpinFired, discreteHistAfter, discreteHeadingAfter,
    stepHeadingUpdate, kinematicHeading, driftHeading, turnNoiseHeading, discretePosChangeSq, discreteExplored, discreteCell,
    gridCell, pushHist, listMin, listMean, sectorMins, minAt, pyRound, qmod,
    totalTurn, cfgSpin, cfgBasic, spinInput, mkSpinState, sSpin1, sSpin2,
    List.range_succ, List.filter_cons] <;> decide

/-- Spin-trace step lemma 3. -/
theorem spinStep3 :
    (discreteStep cfgSpin sSpin2 (spinInput 1 330 335)).state = sSpin3 := by
  norm_num [discreteStep, discreteStateAfter, discreteReward, discreteCoreReward,
    discreteGoalNow, discreteCompletionBonus, discreteTerminated, discreteCC,
    discreteNCBase, discreteSpinFired, discreteHistAfter, discreteHeadingAfter,
    stepHeadingUpdate, kinematicHeading, driftHeading, turnNoiseHeading, discretePosChangeSq, discreteExplored, discreteCell,
    gridCell, pushHist, listMin, listMean, sectorMins, minAt, pyRound, qmod,
    totalTurn, cfgSpin, cfgBasic, spinInput, mkSpinState, sSpin2, sSpin3,
    List.range_succ, List.filter_cons] <;> decide

/-- Spin-trace step lemma 4. -/
theorem spinStep4 :
    (discreteStep cfgSpin sSpin3 (spinInput 2 335 340)).state = sSpin4 := by
  norm_num [discreteStep, discreteStateAfter, discreteReward, discreteCoreReward,
    discreteGoalNow, discreteCompletionBonus, discreteTerminated, discreteCC,
    discreteNCBase, discreteSpinFired, discreteHistAfter, discreteHeadingAfter,
    stepHeadingUpdate, kinematicHeading, driftHeading, turnNoiseHeading, discretePosChangeSq, discreteExplored, discreteCell,
    gridCell, pushHist, listMin, listMean, sectorMins, minAt, pyRound, qmod,
    totalTurn, cfgSpin, cfgBasic, spinInput, mkSpinState, sSpin3, sSpin4,
    List.range_succ, List.filter_cons] <;> decide

/-- Spin-trace step lemma 5. -/
theorem spinStep5 :
    (discreteStep cfgSpin sSpin4 (spinInput 1 340 345)).state = sSpin5 := by
  norm_num [discreteStep, discreteStateAfter, discreteReward, discreteCoreReward,
    discreteGoalNow, discreteCompletionBonus, discreteTerminated, discreteCC,
    discreteNCBase, discreteSpinFired, discreteHistAfter, discreteHeadingAfter,
    stepHeadingUpdate, kinematicHeading, driftHeading, turnNoiseHeading, discretePosChangeSq, discreteExplored, discreteCell,
    gridCell, pushHist, listMin, listMean, sectorMins, minAt, pyRound, qmod,
    totalTurn, cfgSpin, cfgBasic, spinInput, mkSpinState, sSpin4, sSpin5,
    List.range_succ, List.filter_cons] <;> decide

/-- Spin-trace step lemma 6. -/
theorem spinStep6 :
    (discreteStep cfgSpin sSpin5 (spinInput 2 345 350)).state = sSpin6 := by
  norm_num [discreteStep, discreteStateAfter, discreteReward, discreteCoreReward,
    discreteGoalNow, discreteCompletionBonus, discreteTerminated, discreteCC,
    discreteNCBase, discreteSpinFired, discreteHistAfter, discreteHeadingAfter,
    stepHeadingUpdate, kinematicHeading, driftHeading, turnNoiseHeading, discretePosChangeSq, discreteExplored, discreteCell,
    gridCell, pushHist, listMin, listMean, sectorMins, minAt, pyRound, qmod,
    totalTurn, cfgSpin, cfgBasic, spinInput, mkSpinState, sSpin5, sSpin6,
    List.range_succ, List.filter_cons] <;> decide

/-- Spin-trace step lemma 7. -/
theorem spinStep7 :
    (discreteStep cfgSpin sSpin6 (spinInput 1 350 355)).state = sSpin7 := by
  norm_num [discreteStep, discreteStateAfter, discreteReward, discreteCoreReward,
    discreteGoalNow, discreteCompletionBonus, discreteTerminated, discreteCC,
    discreteNCBase, discreteSpinFired, discreteHistAfter, discreteHeadingAfter,
    stepHeadingUpdate, kinematicHeading, driftHeading, turnNoiseHeading, discretePosChangeSq, discreteExplored, discreteCell,
    gridCell, pushHist, listMin, listMean, sectorMins, minAt, pyRound, qmod,
    totalTurn, cfgSpin, cfgBasic, spinInput, mkSpinState, sSpin6, sSpin7,
    List.range_succ, List.filter_cons] <;> decide

/-- Spin-trace step lemma 8 (crosses into grid cell (9,8)). -/
theorem spinStep8 :
    (discreteStep cfgSpin sSpin7 (spinInput 2 355 360)).state = sSpin8 := by
  norm_num [discreteStep, discreteStateAfter, discreteReward, discreteCoreReward,
    discreteGoalNow, discreteCompletionBonus, discreteTerminated, discreteCC,
    discreteNCBase, discreteSpinFired, discreteHistAfter, discreteHeadingAfter,
    stepHeadingUpdate, kinematicHeading, driftHeading, turnNoiseHeading, discretePosChangeSq, discreteExplored, discreteCell,
    gridCell, pushHist, listMin, listMean, sectorMins, minAt, pyRound, qmod,
    totalTurn, cfgSpin, cfgBasic, spinInput, mkSpinState, sSpin7, sSpin8,
    List.range_succ, List.filter_cons] <;> decide

/-- The eight-step spin trace reaches `sSpin8` from the reset state. -/
theorem spinReach : (runSteps cfgSpin stateSpin0 spinTrace8).state = sSpin8 := by
  simp only [runSteps, spinTrace8, List.foldl_cons, List.foldl_nil]
  rw [spinStep1, spinStep2, spinStep3, spinStep4, spinStep5, spinStep6, spinStep7,
    spinStep8]

/-- C4 counterexample.  The claim gates the -0.50 spin penalty on the net
positional change "over the same window" as the heading buffer.  The code
gates it on the positional change since the PREVIOUS STEP only.  On the
nine-step trace `spinTrace8 ++ [spinInput9]` the robot travels 42 units east
across the window (squared net change 1764, far above the squared threshold
9) while turning 14 degrees each step; on the ninth step it moves only 2
units, so the code applies the flat -0.50 penalty (reward = base - 1/2 =
-0.385) even though the claim's window condition is false. -/
theorem C4_spin_penalty_counterexample :
    (runSteps cfgSpin stateSpin0 spinTrace8).state = sSpin8 ∧
    discreteSpinFired cfgSpin sSpin8 spinInput9 = true ∧
    (discreteStep cfgSpin sSpin8 spinInput9).reward =
      discreteNCBase cfgSpin sSpin8 spinInput9 - 1 / 2 ∧
    (discreteStep cfgSpin sSpin8 spinInput9).reward = -0.385 ∧
    (spinInput9.newX - stateSpin0.x) ^ 2 + (spinInput9.newY - stateSpin0.y) ^ 2
      = 1764 ∧
    ¬ ((1764 : ℚ) < 9) := by
  refine ⟨spinReach, ?_, ?_, ?_, ?_, by norm_num⟩
  · norm_num [discreteSpinFired, discreteHistAfter, discreteHeadingAfter,
      stepHeadingUpdate, kinematicHeading, driftHeading, turnNoiseHeading, discretePosChangeSq, pushHist, qmod, totalTurn,
      cfgSpin, cfgBasic, spinInput, spinInput9, mkSpinState, sSpin8]
  · norm_num [discreteStep, discreteReward, discreteCoreReward, discreteGoalNow,
      discreteCompletionBonus, discreteTerminated, discreteCC, discreteSpinFired,
      discreteHistAfter, discreteHeadingAfter, stepHeadingUpdate, kinematicHeading, driftHeading, turnNoiseHeading,
      discretePosChangeSq, pushHist, qmod, totalTurn, cfgSpin, cfgBasic,
      spinInput, spinInput9, mkSpinState, sSpin8, sub_eq_add_neg]
  · norm_num [discreteStep, discreteReward, discreteCoreReward, discreteGoalNow,
      discreteCompletionBonus, discreteTerminated, discreteCC, discreteNCBase,
      discreteSpinFired, discreteHistAfter, discreteHeadingAfter,
      stepHeadingUpdate, kinematicHeading, driftHeading, turnNoiseHeading, discretePosChangeSq, discreteExplored, discreteCell,
      gridCell, pushHist, listMin, listMean, sectorMins, minAt, pyRound, qmod,
      totalTurn, cfgSpin, cfgBasic, spinInput, spinInput9, mkSpinState, sSpin8,
      List.range_succ, List.filter_cons]
  · norm_num [spinInput, spinInput9, stateSpin0, robotEnvReset, drawSpin,
      drawBasic, cfgSpin, cfgBasic]

/-- C4 amended.  On every non-collision step the returned reward is the base
reward plus a flat -0.50 exactly when the heading buffer (after this step's
append) holds at least 10 samples, the summed absolute wrapped heading
deltas exceed 80 degrees, and the squared positional change SINCE THE
PREVIOUS STEP (not over the buffer window) is below 9 (i.e. the change is
under 3 units), plus the goal and completion bonuses. -/
theorem C4_spin_penalty (cfg : DiscreteCfg) (s : DiscreteState) (i : StepInput)
    (hc : i.collided = false) :
    (discreteStep cfg s i).reward =
      discreteNCBase cfg s i
        + (if (discreteHistAfter cfg s i).length ≥ 10
              ∧ totalTurn (discreteHistAfter cfg s i) > 80
              ∧ (i.newX - s.lastX) ^ 2 + (i.newY - s.lastY) ^ 2 < 9
           then -(1 / 2 : ℚ) else 0)
        + (if discreteGoalNow cfg s i then 100 else 0)
        + discreteCompletionBonus cfg s i := by
  have hiff : discreteSpinFired cfg s i = true ↔
      ((discreteHistAfter cfg s i).length ≥ 10
        ∧ totalTurn (discreteHistAfter cfg s i) > 80
        ∧ (i.newX - s.lastX) ^ 2 + (i.newY - s.lastY) ^ 2 < 9) := by
    simp [discreteSpinFired, discretePosChangeSq, hc, and_assoc]
  cases hfb : discreteSpinFired cfg s i with
  | true =>
      rw [if_pos (hiff.mp hfb)]
      simp [discreteStep, discreteReward, discreteCoreReward, hc, hfb]
  | false =>
      rw [if_neg (fun hcond => by simp [hiff.mpr hcond] at hfb)]
      simp [discreteStep, discreteReward, discreteCoreReward, hc, hfb]

/-- Witness for C4 amended at a concrete non-collision step. -/
theorem C4_spin_penalty_witness :
    (discreteStep cfgBasic stateBasic stepInputNC).reward =
      discreteNCBase cfgBasic stateBasic stepInputNC
        + (if (discreteHistAfter cfgBasic stateBasic stepInputNC).length ≥ 10
              ∧ totalTurn (discreteHistAfter cfgBasic stateBasic stepInputNC) > 80
              ∧ (stepInputNC.newX - stateBasic.lastX) ^ 2
                  + (stepInputNC.newY - stateBasic.lastY) ^ 2 < 9
           then -(1 / 2 : ℚ) else 0)
        + (if discreteGoalNow cfgBasic stateBasic stepInputNC then 100 else 0)
        + discreteCompletionBonus cfgBasic stateBasic stepInputNC :=
  C4_spin_penalty cfgBasic stateBasic stepInputNC rfl

/-- C5 counterexample.  The claim requires `terminated = False` on every
goal-reaching step.  A goal-reaching step that is also a second consecutive
collision has `terminated = true` (together with `truncated = true`; the
-40 collision reward plus the single +100 goal bonus gives 60). -/
theorem C5_goal_truncation_counterexample :
    (discreteStep cfgGoal stateGoalCC1 goalHitInputC).goalReached = true ∧
    (discreteStep cfgGoal stateGoalCC1 goalHitInputC).terminated = true ∧
    (discreteStep cfgGoal stateGoalCC1 goalHitInputC).truncated = true ∧
    (discreteStep cfgGoal stateGoalCC1 goalHitInputC).reward = 60 := by
  refine ⟨?_, ?_, ?_, ?_⟩ <;>
    norm_num [discreteStep, discreteReward, discreteCoreReward, discreteGoalNow,
      discreteCompletionBonus, discreteTerminated, discreteTruncated, discreteCC,
      cfgGoal, cfgBasic, stateGoalCC1, stateGoal, robotEnvReset, drawBasic,
      goalHitInputC, stepInputC, stepInputNC, worldReset, robotReset]

/-- C5 amended.  On every goal-reaching step, `step` adds the +100 bonus
exactly once (the returned reward is the branch reward plus a single 100,
plus the completion bonus when it applies) and returns `truncated = true`;
`terminated = false` holds whenever the step is not itself a collision (and
more generally whenever it is not a second consecutive collision). -/
theorem C5_goal_truncation (cfg : DiscreteCfg) (s : DiscreteState)
    (i : StepInput) (hg : discreteGoalNow cfg s i = true) :
    (discreteStep cfg s i).truncated = true ∧
    (discreteStep cfg s i).reward =
      discreteCoreReward cfg s i + 100 + discreteCompletionBonus cfg s i ∧
    (i.collided = false → (discreteStep cfg s i).terminated = false) := by
  refine ⟨?_, ?_, fun hc => ?_⟩
  · simp [discreteStep, discreteTruncated, hg]
  · simp [discreteStep, discreteReward, hg]
  · simp [discreteStep, discreteTerminated, discreteCC, hc]

/-- Witness for C5 amended at a concrete collision-free goal-reaching step. -/
theorem C5_goal_truncation_witness :
    (discreteStep cfgGoal stateGoal goalHitInputNC).truncated = true ∧
    (discreteStep cfgGoal stateGoal goalHitInputNC).reward =
      discreteCoreReward cfgGoal stateGoal goalHitInputNC + 100
        + discreteCompletionBonus cfgGoal stateGoal goalHitInputNC ∧
    (discreteStep cfgGoal stateGoal goalHitInputNC).terminated = false := by
  have h := C5_goal_truncation cfgGoal stateGoal goalHitInputNC
    (by norm_num [discreteGoalNow, cfgGoal, cfgBasic, stateGoal, robotEnvReset,
      drawBasic, goalHitInputNC, stepInputNC])
  exact ⟨h.1, h.2.1, h.2.2 rfl⟩

/-- C6.  The spec requires every discrete-variant reset — the curriculum
layout variant included — to clear the whole episode memory and seed the
visited-cell set with the starting cell.  The base `RobotEnv.reset` does
(fifth and sixth conjuncts); `CurriculumRobotEnv.reset` clears the heading
history and the stagnation tracker but leaves the previous episode's
visited-cell set untouched and never seeds the starting cell: after its
reset the set still holds only the stale cell (3,3) and not the starting
cell (8,8). -/
theorem C6_curriculum_reset_keeps_visited :
    (curriculumEnvReset cfgBasic statePrev drawBasic).visitedCells = [(3, 3)] ∧
    (gridCell drawBasic.spawnX cfgBasic.width 16,
      gridCell drawBasic.spawnY cfgBasic.height 16) ∉
      (curriculumEnvReset cfgBasic statePrev drawBasic).visitedCells ∧
    (curriculumEnvReset cfgBasic statePrev drawBasic).headingHistory = [] ∧
    (curriculumEnvReset cfgBasic statePrev drawBasic).stagnationSteps = 0 ∧
    (robotEnvReset cfgBasic drawBasic).visitedCells =
      [(gridCell drawBasic.spawnX cfgBasic.width 16,
        gridCell drawBasic.spawnY cfgBasic.height 16)] ∧
    (robotEnvReset cfgBasic drawBasic).headingHistory =
      [(robotEnvReset cfgBasic drawBasic).heading] := by
  refine ⟨rfl, ?_, rfl, rfl, rfl, rfl⟩
  norm_num [curriculumEnvReset, gridCell, cfgBasic, statePrev, stateBasic,
    robotEnvReset, drawBasic, worldReset, robotReset]

/-- C7 counterexample.  The claim requires every goal observation tail to
end with the sine and cosine of the RELATIVE bearing (goal direction minus
heading).  With heading 180 degrees and the goal due east (dx = 100, dy =
0), the relative bearing is -180 degrees, so the spec tail (and the
discrete environment's tail) is [1/8, 0, -1]; the continuous environment
instead emits the ABSOLUTE bearing 0, giving [1/8, 0, 1].  The kernel
values are exact: goal distance 100 and world diagonal 800 = sqrt(640^2 +
480^2). -/
theorem C7_goal_bearing_counterexample :
    continuousObsGoalTail axisTrig obsKernelEast 100 0 = [1/8, 0, 1] ∧
    specObsGoalTail axisTrig obsKernelEast 180 100 0 = [1/8, 0, -1] ∧
    discreteObsGoalTail axisTrig obsKernelEast 180 100 0 = [1/8, 0, -1] ∧
    continuousObsGoalTail axisTrig obsKernelEast 100 0 ≠
      specObsGoalTail axisTrig obsKernelEast 180 100 0 ∧
    obsKernelEast.goalDistRaw ^ 2 = (100 : ℚ) ^ 2 + 0 ^ 2 ∧
    obsKernelEast.maxDist ^ 2 = (640 : ℚ) ^ 2 + 480 ^ 2 := by
  refine ⟨?_, ?_, ?_, ?_, by norm_num [obsKernelEast], by norm_num [obsKernelEast]⟩ <;>
    norm_num [continuousObsGoalTail, specObsGoalTail, discreteObsGoalTail,
      obsDistNorm, axisTrig, obsKernelEast]

/-- C7 amended.  For any trig kernel satisfying the real-trigonometric wrap
identity sin/cos(atan2(sin t, cos t)) = sin/cos(t), the discrete
environment's observation is the ray distances, then sin/cos of the
heading, then exactly the spec's goal tail (relative bearing); the
continuous environment's observation ends instead with sin/cos of the
absolute goal bearing atan2(dy, dx), the heading not subtracted. -/
theorem C7_observation_layout (T : TrigOracle) (k : ObsKernel) (rays : List ℚ)
    (heading dx dy : ℚ)
    (hwrap : ∀ t : ℚ, T.sind (T.atan2d (T.sind t) (T.cosd t)) = T.sind t ∧
        T.cosd (T.atan2d (T.sind t) (T.cosd t)) = T.cosd t) :
    discreteObservation T k rays heading dx dy true =
      rays ++ [T.sind heading, T.cosd heading] ++ specObsGoalTail T k heading dx dy ∧
    continuousObservation T k rays heading dx dy true =
      rays ++ [T.sind heading, T.cosd heading]
        ++ [obsDistNorm k, T.sind (T.atan2d dy dx), T.cosd (T.atan2d dy dx)] := by
  have h := hwrap (T.atan2d dy dx - heading)
  constructor
  · simp [discreteObservation, discreteObsGoalTail, specObsGoalTail, h.1, h.2]
  · simp [continuousObservation, continuousObsGoalTail]

/-- Witness for C7 amended: the layout equalities at a concrete kernel
satisfying the wrap identity definitionally. -/
theorem C7_observation_layout_witness :
    discreteObservation constTrig obsKernelEast [1, 1] 45 100 0 true =
      [1, 1] ++ [constTrig.sind 45, constTrig.cosd 45]
        ++ specObsGoalTail constTrig obsKernelEast 45 100 0 ∧
    continuousObservation constTrig obsKernelEast [1, 1] 45 100 0 true =
      [1, 1] ++ [constTrig.sind 45, constTrig.cosd 45]
        ++ [obsDistNorm obsKernelEast, constTrig.sind (constTrig.atan2d 0 100),
            constTrig.cosd (constTrig.atan2d 0 100)] :=
  C7_observation_layout constTrig obsKernelEast [1, 1] 45 100 0
    (fun _ => ⟨rfl, rfl⟩)

/-- C8 counterexample.  The claim requires any configuration with fewer
than 2 rays to fail fast at environment construction and never to compute
distances.  A fixed-angle list with a single angle resolves to a 1-ray
environment at construction with no error of any kind, and ray casting then
silently produces a 1-entry distance list; in fan mode a 1-ray
configuration also constructs fine and only errors at the first cast
(`cast_rays` raises), i.e. at the first `reset()`, not at construction. -/
theorem C8_ray_validation_counterexample :
    resolveRayCount 8 5 (some [0]) = 1 ∧
    castRaysAtAngles (fun _ => none) 0 [0] = [1] ∧
    resolveRayCount 1 1 none = 1 ∧
    castRays (fun _ => none) 0 1 90 = Except.error "ray_count must be >= 2" :=
  ⟨rfl, rfl, rfl, rfl⟩

/-- C8 amended.  `cast_rays` (fan mode) rejects `ray_count < 2` with an
error raised at cast time — hence at the first observation, not at
construction, which is a total function of the configuration; `cast_rays`
returns one distance per ray for any valid count; and
`cast_rays_at_angles` performs no count validation at all, silently
producing one distance per configured angle. -/
theorem C8_ray_count_validation (hit : ℚ → Option ℚ) (h fov : ℚ)
    (rcArg rcProfile : Nat) (angles : List ℚ) (n : Nat) (hn : n < 2) :
    castRays hit h n fov = Except.error "ray_count must be >= 2" ∧
    (∀ m : Nat, 2 ≤ m →
      Except.map List.length (castRays hit h m fov) = Except.ok m) ∧
    (castRaysAtAngles hit h angles).length = angles.length ∧
    resolveRayCount rcArg rcProfile (some angles) = angles.length ∧
    resolveRayCount rcArg rcProfile none = max rcArg rcProfile := by
  refine ⟨?_, fun m hm => ?_, ?_, rfl, rfl⟩
  · simp [castRays, hn]
  · have : ¬ (m < 2) := by omega
    simp [castRays, this, Except.map]
  · simp [castRaysAtAngles]

/-- Witness for C8 amended at `n = 1`, `m = 2` and a two-angle list. -/
theorem C8_ray_count_validation_witness :
    castRays (fun _ => none) 0 1 120 = Except.error "ray_count must be >= 2" ∧
    Except.map List.length (castRays (fun _ => none) 0 2 120) = Except.ok 2 ∧
    (castRaysAtAngles (fun _ => none) 0 [-30, 30]).length = 2 ∧
    resolveRayCount 8 5 (some [-30, 30]) = 2 := by
  have h := C8_ray_count_validation (fun _ => none) 0 120 8 5 [-30, 30] 1
    (by norm_num)
  exact ⟨h.1, h.2.1 2 (by norm_num), h.2.2.1, h.2.2.2.1⟩

/-- C9 counterexample.  The claim requires every collision step of the
continuous environment to return exactly -50.  A collision step whose
post-step position lies inside the goal circle also receives the +100 goal
bonus, returning 50 (termination still holds). -/
theorem C9_continuous_collision_counterexample :
    contInputHit.collided = true ∧
    (continuousStep cfgCont stateCont contInputHit).terminated = true ∧
    (continuousStep cfgCont stateCont contInputHit).goalReached = true ∧
    (continuousStep cfgCont stateCont contInputHit).reward = 50 ∧
    (50 : ℚ) ≠ -50 := by
  refine ⟨rfl, rfl, ?_, ?_, by norm_num⟩ <;>
    norm_num [continuousStep, contReward, contGoalNow, cfgCont, stateCont,
      contInputHit, listMin]

/-- C9 amended.  In the continuous environment `terminated = collided`
always; the collision branch reward is the flat -50, so a collision step
returns exactly -50 unless the goal is simultaneously reached (then +100 is
added); on every collision-free step with minimum normalized ray distance
below 0.5 the displacement term is suppressed (multiplied by zero — the
reward is independent of the displacement) and the reward is
-0.01 - (0.5 - min) * 4, reaching -2.01 at zero clearance; above 0.7 the
displacement-scaled reward earns the +0.02 clearance bonus. -/
theorem C9_continuous_reward (cfg : ContCfg) (s : ContState) (i : ContInput) :
    (continuousStep cfg s i).terminated = i.collided ∧
    (i.collided = true → (continuousStep cfg s i).reward =
      -50 + (if contGoalNow cfg s i then 100 else 0)) ∧
    (i.collided = false → listMin (i.rays.take cfg.rayCount) < 0.5 →
      (continuousStep cfg s i).reward =
        -0.01 - (0.5 - listMin (i.rays.take cfg.rayCount)) * 4
          + (if contGoalNow cfg s i then 100 else 0)) ∧
    (i.collided = false → listMin (i.rays.take cfg.rayCount) = 0 →
      (continuousStep cfg s i).reward =
        -2.01 + (if contGoalNow cfg s i then 100 else 0)) ∧
    (i.collided = false → 0.7 < listMin (i.rays.take cfg.rayCount) →
      (continuousStep cfg s i).reward =
        i.disp * 0.02 - 0.01 + 0.02 + (if contGoalNow cfg s i then 100 else 0)) := by
  refine ⟨rfl, fun hc => ?_, fun hc hd => ?_, fun hc h0 => ?_, fun hc hcl => ?_⟩
  · simp [continuousStep, contReward, hc]
  · have hncl : ¬ ((0.7 : ℚ) < listMin (i.rays.take cfg.rayCount)) := by linarith
    simp only [continuousStep, contReward, hc, Bool.false_eq_true, if_false,
      if_pos hd, if_neg hncl]
    ring
  · have hd : listMin (i.rays.take cfg.rayCount) < 0.5 := by rw [h0]; norm_num
    have hncl : ¬ ((0.7 : ℚ) < listMin (i.rays.take cfg.rayCount)) := by
      rw [h0]; norm_num
    simp only [continuousStep, contReward, hc, Bool.false_eq_true, if_false,
      if_pos hd, if_neg hncl, h0]
    norm_num
  · have hnd : ¬ (listMin (i.rays.take cfg.rayCount) < 0.5) := by linarith
    simp only [continuousStep, contReward, hc, Bool.false_eq_true, if_false,
      if_neg hnd, if_pos hcl]
    ring

/-- Witness for C9 amended: collision with goal, danger zone at min 0.3 and
at exact zero-clearance threshold, and clear space at min 1. -/
theorem C9_continuous_reward_witness :
    (continuousStep cfgCont stateCont contInputHit).terminated =
      contInputHit.collided ∧
    (continuousStep cfgCont stateCont contInputHit).reward =
      -50 + (if contGoalNow cfgCont stateCont contInputHit then 100 else 0) ∧
    (continuousStep cfgCont stateCont contInputDanger).reward =
      -0.01 - (0.5 - listMin (contInputDanger.rays.take cfgCont.rayCount)) * 4
        + (if contGoalNow cfgCont stateCont contInputDanger then 100 else 0) := by
  refine ⟨(C9_continuous_reward cfgCont stateCont contInputHit).1,
    (C9_continuous_reward cfgCont stateCont contInputHit).2.1 rfl,
    (C9_continuous_reward cfgCont stateCont contInputDanger).2.2.1 rfl ?_⟩
  norm_num [contInputDanger, contInputHit, cfgCont, listMin]

/-- Bounds for the optional `% 360` mutations of the heading chain. -/
theorem headingBounds_optMod (c : Prop) [Decidable c] (h add : ℚ)
    (hlo : 0 ≤ h) (hhi : h < 360) :
    0 ≤ (if c then qmod (h + add) 360 else h) ∧
    (if c then qmod (h + add) 360 else h) < 360 := by
  have h360 : (0 : ℚ) < 360 := by norm_num
  split
  · exact ⟨qmod_nonneg _ h360, qmod_lt _ h360⟩
  · exact ⟨hlo, hhi⟩

/-- Bounds for a two-way turn dispatch (actions 1 and 2 reduce `% 360`,
anything else leaves the heading unchanged). -/
theorem headingBounds_turnIte (action : Nat) (u v h : ℚ)
    (hlo : 0 ≤ h) (hhi : h < 360) :
    0 ≤ (if action = 1 then qmod u 360 else if action = 2 then qmod v 360 else h) ∧
    (if action = 1 then qmod u 360 else if action = 2 then qmod v 360 else h) < 360 := by
  have h360 : (0 : ℚ) < 360 := by norm_num
  split
  · exact ⟨qmod_nonneg _ h360, qmod_lt _ h360⟩
  · split
    · exact ⟨qmod_nonneg _ h360, qmod_lt _ h360⟩
    · exact ⟨hlo, hhi⟩

/-- Bounds for the kinematic heading turn. -/
theorem headingBounds_kinematic (model : FlatModel) (turnRate h : ℚ)
    (action : Nat) (hlo : 0 ≤ h) (hhi : h < 360) :
    0 ≤ kinematicHeading model turnRate h action ∧
    kinematicHeading model turnRate h action < 360 := by
  unfold kinematicHeading
  cases model
  · exact headingBounds_turnIte action _ _ h hlo hhi
  · exact headingBounds_turnIte action _ _ h hlo hhi
  · exact headingBounds_turnIte action _ _ h hlo hhi

/-- Bounds for the full discrete heading update chain. -/
theorem stepHeadingUpdate_range (cfg : DiscreteCfg) (turnRate h : ℚ)
    (action : Nat) (drift turnNoise : ℚ) (hlo : 0 ≤ h) (hhi : h < 360) :
    0 ≤ stepHeadingUpdate cfg turnRate h action drift turnNoise ∧
    stepHeadingUpdate cfg turnRate h action drift turnNoise < 360 := by
  have h1 := headingBounds_kinematic cfg.model turnRate h action hlo hhi
  have h2 := headingBounds_optMod (cfg.headingDriftStd > 0)
    (kinematicHeading cfg.model turnRate h action) drift h1.1 h1.2
  exact headingBounds_optMod (cfg.turnNoiseStd > 0 ∧ (action = 1 ∨ action = 2))
    (driftHeading cfg.headingDriftStd (kinematicHeading cfg.model turnRate h action)
      drift) turnNoise h2.1 h2.2

/-- C10.  Heading-range invariant: if the robot heading lies in [0, 360)
before a discrete step, it lies in [0, 360) after it (every heading
mutation is reduced `% 360`; actions that do not turn leave it unchanged);
the continuous step's heading is unconditionally reduced `% 360`; and every
reset establishes the invariant. -/
theorem C10_heading_range (cfg : DiscreteCfg) (s : DiscreteState) (i : StepInput)
    (ccfg : ContCfg) (cs : ContState) (ci : ContInput)
    (hlo : 0 ≤ s.heading) (hhi : s.heading < 360) :
    (0 ≤ (discreteStep cfg s i).state.heading ∧
      (discreteStep cfg s i).state.heading < 360) ∧
    (0 ≤ (continuousStep ccfg cs ci).state.heading ∧
      (continuousStep ccfg cs ci).state.heading < 360) ∧
    (∀ dcfg : DiscreteCfg, ∀ d : ResetDraw,
      0 ≤ (robotEnvReset dcfg d).heading ∧ (robotEnvReset dcfg d).heading < 360) := by
  have h360 : (0 : ℚ) < 360 := by norm_num
  refine ⟨?_, ⟨?_, ?_⟩, fun dcfg d => by norm_num [robotEnvReset, worldReset, robotReset]⟩
  · exact stepHeadingUpdate_range cfg s.turnRate s.heading i.action i.drift
      i.turnNoise hlo hhi
  · exact qmod_nonneg _ h360
  · exact qmod_lt _ h360

/-- Witness for C10 at a concrete state with heading 0 and concrete inputs. -/
theorem C10_heading_range_witness :
    (0 ≤ (discreteStep cfgBasic stateBasic stepInputNC).state.heading ∧
      (discreteStep cfgBasic stateBasic stepInputNC).state.heading < 360) ∧
    (0 ≤ (continuousStep cfgCont stateCont contInputHit).state.heading ∧
      (continuousStep cfgCont stateCont contInputHit).state.heading < 360) ∧
    (∀ dcfg : DiscreteCfg, ∀ d : ResetDraw,
      0 ≤ (robotEnvReset dcfg d).heading ∧ (robotEnvReset dcfg d).heading < 360) :=
  C10_heading_range cfgBasic stateBasic stepInputNC cfgCont stateCont contInputHit
    (by norm_num [stateBasic, robotEnvReset, worldReset, robotReset])
    (by norm_num [stateBasic, robotEnvReset, worldReset, robotReset])
